import Mathlib

/-!
Shallow embedding of the auto-sales-bot ad-lifecycle core, with theorems
checking the natural-language specification against it.

Sources embedded (Python):
  * `app/utils/rate_limiter.py`  — sliding-window rate limiter
  * `app/utils/validators.py`    — field validation for car / plate ads
  * `app/api.py`                 — `handle_submit`, `_edit_ad`, `_delete_ad`,
                                   `mark_as_sold`, `admin_approve`
  * `app/services/car_ad_service.py`, `app/services/plate_ad_service.py`
  * `app/utils/publish.py`       — `publish_to_channel`
  * `app/handlers/photos.py`     — conversational photo collector FSM

Modelling conventions:
  * Clock readings (`time.monotonic()`, `time.time()`, `datetime.now`) are
    modelled as integer seconds (`Int`); other Python floats as `Rat`.
  * JSON payload values are modelled by the inductive `JVal`; dictionaries by
    association lists (`PyDict`).  Python exceptions are modelled with
    `Except Unit`; a `try/except` is a `match` on that result.
  * Database sessions are modelled by explicit `DB` state passing; an early
    return without `commit` returns the original `DB` (the aiohttp handlers
    leave the session context manager without committing, which rolls back).
  * The per-key timestamp list of the rate limiter is threaded explicitly
    for the single key the operation touches.
-/

namespace AutoBot

/-- Values of a decoded JSON payload (`data` dict in the aiohttp handlers).
Nested objects are not needed by any embedded code path and are omitted;
the rendering `pyStr` of compound values is abstracted. -/
inductive JVal where
  | null
  | bool (b : Bool)
  | int (n : Int)
  | float (q : Rat)
  | str (s : String)
  | list (xs : List JVal)
deriving Repr

/-- A Python dict with string keys, as an association list (first binding wins). -/
abbrev PyDict := List (String × JVal)

/-- `data.get(field)` — `None` when the key is absent. -/
def dget (d : PyDict) (k : String) : JVal :=
  (d.lookup k).getD .null

/-- `data.get(field, default)`. -/
def dgetD (d : PyDict) (k : String) (v : JVal) : JVal :=
  (d.lookup k).getD v

/-! ### String helpers

The embedding uses character-list based implementations of the Python string
operations (`strip`, `lower`, `startswith`, `int()` parsing, …) so that every
definition evaluates by kernel reduction. -/

/-- Whitespace for `str.strip()`. -/
def isSpaceChar (c : Char) : Bool :=
  c = ' ' || c = '\t' || c = '\n' || c = '\r'

/-- Python `str.strip()`. -/
def pyStrip (s : String) : String :=
  String.mk (((s.data.dropWhile isSpaceChar).reverse.dropWhile isSpaceChar).reverse)

/-- Decimal digit run to a number (`none` on empty or non-digit input). -/
def digitsToNat? : List Char → Option Nat
  | [] => none
  | cs =>
      if cs.all Char.isDigit then
        some (cs.foldl (fun acc c => 10 * acc + (c.toNat - '0'.toNat)) 0)
      else none

/-- Parse an optionally signed decimal integer, as accepted by Python
`int(str)` after stripping. -/
def strToInt? (s : String) : Option Int :=
  match s.data with
  | '-' :: cs => (digitsToNat? cs).map (fun n => -(n : Int))
  | '+' :: cs => (digitsToNat? cs).map (fun n => (n : Int))
  | cs => (digitsToNat? cs).map (fun n => (n : Int))

/-- `re.search(r"\d", s)` on ASCII digits. -/
def strHasDigit (s : String) : Bool :=
  s.data.any Char.isDigit

/-- Python `str.startswith(pre)`. -/
def strStartsWith (s pre : String) : Bool :=
  pre.data.isPrefixOf s.data

/-- Python `str.lower()` restricted to ASCII and the Cyrillic block the
handlers compare against (`А`–`Я`, `Ё`). -/
def pyLowerChar (c : Char) : Char :=
  if 'A' ≤ c ∧ c ≤ 'Z' then Char.ofNat (c.toNat + 32)
  else if 'А' ≤ c ∧ c ≤ 'Я' then Char.ofNat (c.toNat + 32)
  else if c = 'Ё' then 'ё'
  else c

/-- Python `str.lower()` (see `pyLowerChar`). -/
def pyLower (s : String) : String :=
  String.mk (s.data.map pyLowerChar)

/-- Split a character list at a separator character. -/
def splitCharList (sep : Char) (cs : List Char) : List (List Char) :=
  match cs with
  | [] => [[]]
  | c :: rest =>
      let r := splitCharList sep rest
      if c = sep then [] :: r
      else
        match r with
        | [] => [[c]]
        | h :: t => (c :: h) :: t

/-- `value is None` (a missing key is also `None` through `dget`). -/
def jIsNull : JVal → Bool
  | .null => true
  | _ => false

/-- `value == ""` (Python equality with the empty string). -/
def jIsEmptyStr : JVal → Bool
  | .str "" => true
  | _ => false

/-- `isinstance(val, str) and not val.strip()`. -/
def jIsBlankStr : JVal → Bool
  | .str s => pyStrip s == ""
  | _ => false

/-- Python truthiness of a payload value. -/
def pyTruthy : JVal → Bool
  | .null => false
  | .bool b => b
  | .int n => n != 0
  | .float q => q != 0
  | .str s => s != ""
  | .list xs => !xs.isEmpty

/-- Python `str(value)` for payload values.  Exact for `str`, `int`, `bool`
and `None`; the textual rendering of floats and lists (never decisive in any
embedded check) is abstracted. -/
def pyStr : JVal → String
  | .null => "None"
  | .bool true => "True"
  | .bool false => "False"
  | .int n => toString n
  | .float q => toString q
  | .str s => s
  | .list _ => "[...]"

instance {ε α : Type} [DecidableEq ε] [DecidableEq α] : DecidableEq (Except ε α) :=
  fun x y =>
    match x, y with
    | .ok a, .ok b =>
        if h : a = b then .isTrue (by rw [h]) else .isFalse (by simp [h])
    | .error a, .error b =>
        if h : a = b then .isTrue (by rw [h]) else .isFalse (by simp [h])
    | .ok _, .error _ => .isFalse (by simp)
    | .error _, .ok _ => .isFalse (by simp)

/-- Python `int(value)`: `.error` models the `ValueError`/`TypeError` raised
on unparsable strings and non-numeric types.  String parsing is
`String.toInt?` on the trimmed text (sign + decimal digits). -/
def pyToInt : JVal → Except Unit Int
  | .int n => .ok n
  | .bool b => .ok (if b then 1 else 0)
  | .float q => .ok (q.num.tdiv q.den)
  | .str s =>
      match strToInt? (pyStrip s) with
      | some n => .ok n
      | none => .error ()
  | .null => .error ()
  | .list _ => .error ()

/-- Parse a decimal literal (`"12"`, `"-3.5"`) into a rational; `none` models
`ValueError`.  Python's full `float()` grammar is approximated by
sign + digits with one optional fractional part. -/
def parseDecimal (s : String) : Option Rat :=
  let t := pyStrip s
  match splitCharList '.' t.data with
  | [a] => (strToInt? (String.mk a)).map (fun n => mkRat n 1)
  | [a, b] =>
      if !b.isEmpty && b.all Char.isDigit then
        match strToInt? (String.mk a), digitsToNat? b with
        | some n, some f =>
            let den : Nat := 10 ^ b.length
            some (if strStartsWith t "-"
                  then mkRat (n * (den : Int) - (f : Int)) den
                  else mkRat (n * (den : Int) + (f : Int)) den)
        | _, _ => none
      else none
  | _ => none

/-- Python `float(value)` with the same error model as `pyToInt`. -/
def pyToFloat : JVal → Except Unit Rat
  | .int n => .ok (mkRat n 1)
  | .bool b => .ok (if b then 1 else 0)
  | .float q => .ok q
  | .str s =>
      match parseDecimal s with
      | some q => .ok q
      | none => .error ()
  | .null => .error ()
  | .list _ => .error ()

/-- `_safe_int` (`app/api.py`): `int(val) if val not in (None, "", " ") else
default`, with `ValueError`/`TypeError` mapped to the default. -/
def safeInt (v : JVal) (default : Int := 0) : Int :=
  match v with
  | .null => default
  | .str s =>
      if s = "" || s = " " then default
      else ((pyToInt (.str s)).toOption).getD default
  | v => ((pyToInt v).toOption).getD default

/-- `_safe_float` (`app/api.py`). -/
def safeFloat (v : JVal) (default : Rat := 0) : Rat :=
  match v with
  | .null => default
  | .str s =>
      if s = "" || s = " " then default
      else ((pyToFloat (.str s)).toOption).getD default
  | v => ((pyToFloat v).toOption).getD default

/-! ## Rate limiter (`app/utils/rate_limiter.py`) -/

/-- A single rate-limit rule (`RateLimit` dataclass). -/
structure RateLimit where
  max_requests : Nat
  window_seconds : Nat
  message : String
deriving DecidableEq, Repr

/-- `max(lim.window_seconds for lim in limits)`. -/
def maxWindow (limits : List RateLimit) : Nat :=
  (limits.map (·.window_seconds)).foldl max 0

/-- The pruning step of `RateLimiter.check`:
`timestamps[:] = [ts for ts in timestamps if ts > cutoff]` with
`cutoff = now - max_window`. -/
def pruneTs (now : Int) (maxW : Nat) (ts : List Int) : List Int :=
  ts.filter (fun t => now - (maxW : Int) < t)

/-- `sum(1 for ts in timestamps if ts > window_start)` with
`window_start = now - limit.window_seconds`. -/
def countRecent (now : Int) (window : Nat) (ts : List Int) : Nat :=
  (ts.filter (fun t => now - (window : Int) < t)).length

/-- Result of `RateLimiter.check` for one key: the `(denied, message)` pair
together with the key's stored timestamp list after the call. -/
structure CheckResult where
  denied : Bool
  message : Option String
  stored : List Int
deriving DecidableEq, Repr

/-- `RateLimiter.check`, projected onto the single key it touches
(`self._store[key]` is passed in and returned).  `_maybe_purge` only deletes
keys whose every timestamp is older than the longest window — for the key
being checked the pruning step subsumes it, so it is not modelled.
The rules are tried in list order and the first violated rule denies;
a denied attempt does not record the new timestamp. -/
def limiterCheck (limits : List RateLimit) (now : Int) (timestamps : List Int) :
    CheckResult :=
  let pruned := pruneTs now (maxWindow limits) timestamps
  match limits.find? (fun lim => lim.max_requests ≤ countRecent now lim.window_seconds pruned) with
  | some lim => ⟨true, some lim.message, pruned⟩
  | none => ⟨false, none, pruned ++ [now]⟩

/-- The two rules of the module-level `submit_limiter` instance. -/
def submitLimits : List RateLimit :=
  [ ⟨3, 300, "Слишком много объявлений. Максимум 3 за 5 минут."⟩,
    ⟨10, 3600, "Слишком много объявлений. Максимум 10 в час."⟩ ]

/-! ## Enumerations (`app/models/car_ad.py`, `app/models/photo.py`) -/

/-- `FuelType` enum. -/
inductive FuelType where
  | petrol | diesel | gas | electric | hybrid
deriving DecidableEq, Repr

/-- `Transmission` enum. -/
inductive Transmission where
  | manual | automatic | robot | variator
deriving DecidableEq, Repr

/-- `AdStatus` enum. -/
inductive AdStatus where
  | pending | approved | rejected | sold
deriving DecidableEq, Repr

/-- `AdType` enum (discriminator of the shared photo table). -/
inductive AdKind where
  | car | plate
deriving DecidableEq, Repr

/-- `FUEL_TYPE_MAP` (`app/utils/mappings.py`). -/
def FUEL_TYPE_MAP : List (String × FuelType) :=
  [("бензин", .petrol), ("дизель", .diesel), ("газ", .gas),
   ("электро", .electric), ("гибрид", .hybrid)]

/-- `TRANSMISSION_MAP` (`app/utils/mappings.py`). -/
def TRANSMISSION_MAP : List (String × Transmission) :=
  [("механика", .manual), ("автомат", .automatic), ("робот", .robot),
   ("вариатор", .variator)]

/-! ## Validators (`app/utils/validators.py`)

The validators are embedded in the `Except Unit` monad: an `.error` is an
uncaught Python exception.  Every `try/except (ValueError, TypeError)` of the
source appears as a `match` on `pyToInt`/`pyToFloat`; the only other
raising operation is the `BRANDS[brand_val]` subscript, embedded as
`catalogSubscript`.

The static catalog `app.data.brands.BRANDS` is imported by the validator but
its module is not under `src/`; it is kept abstract as the `catalog`
parameter (a finite map from brand to model list), and `datetime.now().year`
as the `currentYear` parameter. -/

/-- A brand → models catalog standing for `app.data.brands.BRANDS`. -/
abbrev Catalog := List (String × List String)

/-- A raising dict subscript (`BRANDS[brand_val]`): `KeyError` when absent. -/
def catalogSubscript (c : Catalog) (k : String) : Except Unit (List String) :=
  match c.lookup k with
  | some v => .ok v
  | none => .error ()

/-- `_check_required_string`. -/
def checkRequiredString (data : PyDict) (field label : String)
    (minLen : Nat := 1) (maxLen : Nat := 100) : List String :=
  let val := dget data field
  if jIsNull val || jIsBlankStr val then [s!"{label} — обязательное поле"]
  else
    let v := pyStrip (pyStr val)
    if v.length < minLen ∨ maxLen < v.length then
      [s!"{label} — от {minLen} до {maxLen} символов"]
    else []

/-- `_check_optional_string`. -/
def checkOptionalString (data : PyDict) (field label : String)
    (maxLen : Nat) : List String :=
  let val := dget data field
  if jIsNull val || jIsBlankStr val then []
  else
    let v := pyStrip (pyStr val)
    if maxLen < v.length then [s!"{label} — максимум {maxLen} символов"]
    else []

/-- `_check_phone`. -/
def checkPhone (data : PyDict) (field : String := "contact_phone") :
    List String :=
  let val := dget data field
  if jIsNull val || jIsBlankStr val then ["Контактный телефон — обязательное поле"]
  else
    let v := pyStrip (pyStr val)
    if v.length < 5 ∨ 20 < v.length then
      ["Контактный телефон — от 5 до 20 символов"]
    else if !strHasDigit v then
      ["Контактный телефон — должен содержать цифры"]
    else []

/-- The brand/model catalog cross-check block of `validate_car_ad`:
the subscript `BRANDS[brand_val]` is only reached in the `elif` after
`brand_val not in BRANDS` was ruled out. -/
def brandModelErrors (catalog : Catalog) (brandVal modelVal : String) :
    Except Unit (List String) :=
  if brandVal ≠ "" ∧ brandVal ≠ "Другая" then
    if (catalog.lookup brandVal).isNone then
      .ok [s!"Марка «{brandVal}» не найдена в каталоге"]
    else if modelVal ≠ "" ∧ modelVal ≠ "Другая" then do
      let models ← catalogSubscript catalog brandVal
      if modelVal ∈ models then .ok []
      else .ok [s!"Модель «{modelVal}» не найдена для марки «{brandVal}»"]
    else .ok []
  else .ok []

/-- The year block of `validate_car_ad` (`try: int(year) … except: …`). -/
def yearErrors (data : PyDict) (currentYear : Int) : List String :=
  let maxYear := currentYear + 1
  let year := dget data "year"
  if jIsNull year || jIsEmptyStr year then ["Год выпуска — обязательное поле"]
  else
    match pyToInt year with
    | .ok y =>
        if y < 1960 ∨ maxYear < y then [s!"Год выпуска — от 1960 до {maxYear}"]
        else []
    | .error _ => ["Год выпуска — должно быть числом"]

/-- The price block shared by both validators, with a kind-specific ceiling
and ceiling message. -/
def priceErrors (data : PyDict) (ceiling : Int) (ceilingMsg : String) :
    List String :=
  let price := dget data "price"
  if jIsNull price || jIsEmptyStr price then ["Цена — обязательное поле"]
  else
    match pyToInt price with
    | .ok p =>
        if p ≤ 0 then ["Цена — должна быть больше 0"]
        else if ceiling < p then [ceilingMsg]
        else []
    | .error _ => ["Цена — должна быть числом"]

/-- The mileage block of `validate_car_ad`. -/
def mileageErrors (data : PyDict) : List String :=
  let mileage := dget data "mileage"
  if jIsNull mileage || jIsEmptyStr mileage then []
  else
    match pyToInt mileage with
    | .ok m =>
        if m < 0 then ["Пробег — не может быть отрицательным"]
        else if 10000000 < m then ["Пробег — максимум 10 000 000"]
        else []
    | .error _ => ["Пробег — должен быть числом"]

/-- The engine-volume block of `validate_car_ad` (bounds 0.1 – 20.0). -/
def engineErrors (data : PyDict) : List String :=
  let engine := dget data "engine_volume"
  if jIsNull engine || jIsEmptyStr engine then []
  else
    match pyToFloat engine with
    | .ok q =>
        if q < mkRat 1 10 ∨ mkRat 20 1 < q then ["Объём двигателя — от 0.1 до 20.0"]
        else []
    | .error _ => ["Объём двигателя — должен быть числом"]

/-- An enum-vocabulary block (`fuel_type` / `transmission`): the raw value's
`str()` must be a key of the mapping. -/
def vocabErrors (data : PyDict) (field : String) (keys : List String)
    (label : String) : List String :=
  let v := dget data field
  if jIsNull v || jIsEmptyStr v then []
  else if keys.contains (pyStr v) then []
  else
    let allowed := String.intercalate ", " keys
    [s!"{label} — допустимые значения: {allowed}"]

/-- `validate_car_ad`. -/
def validate_car_ad (catalog : Catalog) (currentYear : Int) (data : PyDict) :
    Except Unit (List String) := do
  let brandReq := checkRequiredString data "brand" "Марка" 1 100
  let modelReq := checkRequiredString data "model" "Модель" 1 100
  let brandVal := pyStrip (pyStr (dgetD data "brand" (.str "")))
  let modelVal := pyStrip (pyStr (dgetD data "model" (.str "")))
  let catErrs ← brandModelErrors catalog brandVal modelVal
  let yErrs := yearErrors data currentYear
  let pErrs := priceErrors data 100000000 "Цена — максимум 100 000 000"
  let mErrs := mileageErrors data
  let eErrs := engineErrors data
  let fErrs := vocabErrors data "fuel_type" (FUEL_TYPE_MAP.map (·.1)) "Тип топлива"
  let tErrs := vocabErrors data "transmission" (TRANSMISSION_MAP.map (·.1)) "Коробка передач"
  let cityErrs := checkRequiredString data "city" "Город" 1 100
  let phoneErrs := checkPhone data
  let descErrs := checkOptionalString data "description" "Описание" 2000
  .ok (brandReq ++ modelReq ++ catErrs ++ yErrs ++ pErrs ++ mErrs ++ eErrs
        ++ fErrs ++ tErrs ++ cityErrs ++ phoneErrs ++ descErrs)

/-- `validate_plate_ad`. -/
def validate_plate_ad (data : PyDict) : Except Unit (List String) := do
  let plateErrs := checkRequiredString data "plate_number" "Номер госномера" 1 20
  let pErrs := priceErrors data 50000000 "Цена — максимум 50 000 000"
  let cityErrs := checkRequiredString data "city" "Город" 1 100
  let phoneErrs := checkPhone data
  let descErrs := checkOptionalString data "description" "Описание" 2000
  .ok (plateErrs ++ pErrs ++ cityErrs ++ phoneErrs ++ descErrs)

/-! ## Persistent data model (`app/models/*.py`)

`created_at` comes from `TimestampMixin` in `app/models/base.py`, which is
imported by every model but is not under `src/`; it is modelled from the
spec (§3) as the row-creation time.  Likewise the user ban flag `is_banned`
is read and written throughout `app/api.py` while `app/models/user.py` shows
no such column — it is modelled from the spec (§3 "ban flag"). -/

/-- `User` row (`app/models/user.py`). -/
structure UserRow where
  id : Nat
  telegram_id : Int
  username : Option String
  full_name : String
  phone : Option String
  is_admin : Bool
  is_banned : Bool
  created_at : Int
deriving DecidableEq, Repr

/-- `CarAd` row (`app/models/car_ad.py`).  Note: this model has **no**
`channel_message_id` column (only `PlateAd` has one); `app/utils/publish.py`
reads it defensively with `getattr(…, None)` and its assignment to a `CarAd`
instance is an unmapped attribute that is never persisted. -/
structure CarAd where
  id : Nat
  user_id : Nat
  brand : String
  model : String
  year : Int
  mileage : Int
  engine_volume : Rat
  fuel_type : FuelType
  transmission : Transmission
  color : String
  price : Int
  description : String
  has_gbo : Bool
  region : Option String
  city : String
  contact_phone : String
  contact_telegram : Option String
  status : AdStatus
  rejection_reason : Option String
  view_count : Int
  expires_at : Option Int
  created_at : Int
deriving DecidableEq, Repr

/-- `PlateAd` row (`app/models/plate_ad.py`); unlike `CarAd` it has the
F23 column `channel_message_id`. -/
structure PlateAd where
  id : Nat
  user_id : Nat
  plate_number : String
  price : Int
  description : String
  region : Option String
  city : String
  contact_phone : String
  contact_telegram : Option String
  status : AdStatus
  rejection_reason : Option String
  view_count : Int
  expires_at : Option Int
  created_at : Int
  channel_message_id : Option Nat
deriving DecidableEq, Repr

/-- `AdPhoto` row (`app/models/photo.py`): keyed by ad kind + ad id. -/
structure AdPhoto where
  id : Nat
  ad_type : AdKind
  ad_id : Nat
  file_id : String
  position : Nat
  created_at : Int
deriving DecidableEq, Repr

/-- The relational store, restricted to the tables the embedded operations
touch (`ad_views` / `favorites` are unrelated to the claims).  The `next_*`
counters model the primary-key sequences.  Photos are appended in ascending
position order by every embedded writer, so the list order of a
`photosOf` result coincides with `ORDER BY position`. -/
structure DB where
  users : List UserRow
  car_ads : List CarAd
  plate_ads : List PlateAd
  photos : List AdPhoto
  next_user_id : Nat
  next_car_id : Nat
  next_plate_id : Nat
  next_photo_id : Nat
deriving DecidableEq, Repr

/-- `SELECT … WHERE CarAd.id == ad_id` (`scalar_one_or_none` on the
primary key). -/
def DB.findCar (db : DB) (ad_id : Nat) : Option CarAd :=
  db.car_ads.find? (fun a => a.id == ad_id)

/-- `SELECT … WHERE PlateAd.id == ad_id`. -/
def DB.findPlate (db : DB) (ad_id : Nat) : Option PlateAd :=
  db.plate_ads.find? (fun a => a.id == ad_id)

/-- `SELECT … WHERE User.telegram_id == …` (unique column). -/
def DB.findUserByTg (db : DB) (tg : Int) : Option UserRow :=
  db.users.find? (fun u => u.telegram_id == tg)

/-- `SELECT … WHERE User.id == …`. -/
def DB.findUserById (db : DB) (uid : Nat) : Option UserRow :=
  db.users.find? (fun u => u.id == uid)

/-- Persist an updated `CarAd` row (ORM attribute writes + `commit`). -/
def DB.updateCar (db : DB) (ad : CarAd) : DB :=
  { db with car_ads := db.car_ads.map (fun a => if a.id == ad.id then ad else a) }

/-- Persist an updated `PlateAd` row. -/
def DB.updatePlate (db : DB) (ad : PlateAd) : DB :=
  { db with plate_ads := db.plate_ads.map (fun a => if a.id == ad.id then ad else a) }

/-- Persist an updated `User` row. -/
def DB.updateUser (db : DB) (u : UserRow) : DB :=
  { db with users := db.users.map (fun x => if x.id == u.id then u else x) }

/-- The status of the ad of a given kind and id, if it exists. -/
def DB.statusOf (db : DB) (kind : AdKind) (ad_id : Nat) : Option AdStatus :=
  match kind with
  | .car => (db.findCar ad_id).map (·.status)
  | .plate => (db.findPlate ad_id).map (·.status)

/-- The photos attached to an ad
(`SELECT … WHERE ad_type == … AND ad_id == … ORDER BY position`; see `DB`). -/
def DB.photosOf (db : DB) (kind : AdKind) (ad_id : Nat) : List AdPhoto :=
  db.photos.filter (fun p => p.ad_type == kind && p.ad_id == ad_id)

/-- Well-formedness of the store: primary keys are below their sequence
counters (so a freshly inserted row's id is fresh). -/
def DB.wf (db : DB) : Prop :=
  (∀ u ∈ db.users, u.id < db.next_user_id) ∧
  (∀ a ∈ db.car_ads, a.id < db.next_car_id) ∧
  (∀ a ∈ db.plate_ads, a.id < db.next_plate_id) ∧
  (∀ p ∈ db.photos, p.ad_type = .car → p.ad_id < db.next_car_id) ∧
  (∀ p ∈ db.photos, p.ad_type = .plate → p.ad_id < db.next_plate_id)

instance (db : DB) : Decidable db.wf := by
  unfold DB.wf; infer_instance

/-! ## User resolution (`app/services/user_service.py`) -/

/-- `get_or_create_user`: find by `telegram_id` and opportunistically refresh
`username` / `full_name`, or insert a new row (`full_name or "User"`).
The retry-on-`IntegrityError` race branch needs no separate model in the
sequential embedding.  `created_at` is the spec-modelled mixin column. -/
def get_or_create_user (db : DB) (tg : Int) (usernameJ full_nameJ : JVal)
    (nowUtc : Int) : UserRow × DB :=
  match db.findUserByTg tg with
  | some u =>
      let u1 := if !jIsNull usernameJ then { u with username := some (pyStr usernameJ) } else u
      let u2 := if !jIsNull full_nameJ then { u1 with full_name := pyStr full_nameJ } else u1
      (u2, db.updateUser u2)
  | none =>
      let u : UserRow :=
        { id := db.next_user_id
          telegram_id := tg
          username := if jIsNull usernameJ then none else some (pyStr usernameJ)
          full_name := if pyTruthy full_nameJ then pyStr full_nameJ else "User"
          phone := none
          is_admin := false
          is_banned := false
          created_at := nowUtc }
      (u, { db with users := db.users ++ [u], next_user_id := db.next_user_id + 1 })

/-! ## Submission (`app/api.py`, `handle_submit`) -/

/-- `ad_type not in ("car_ad", "plate_ad")` and its discriminated value. -/
def adKindOf? : JVal → Option AdKind
  | .str "car_ad" => some .car
  | .str "plate_ad" => some .plate
  | _ => none

/-- Outcome of `POST /api/submit` (`handle_submit`), by response shape:
400 invalid type/user, 429 rate-limited, 403 banned, 400 validation list,
409 duplicate, 500 server error, 200 success.  The `success` outcome is part
of the response surface of the source but see `handle_submit`: it is not
reachable. -/
inductive SubmitResult where
  | invalidType
  | missingUserId
  | invalidUserId
  | rateLimited (msg : String)
  | banned
  | validationErrors (errs : List String)
  | duplicate
  | serverError
  | success (ad_id : Nat) (published : Bool)
deriving DecidableEq, Repr

/-- Ambient inputs of one `handle_submit` request. -/
structure SubmitEnv where
  catalog : Catalog
  currentYear : Int
  nowUtc : Int
  nowMono : Int
  limiterTs : List Int
deriving DecidableEq, Repr

/-- Result state of one `handle_submit` request. -/
structure SubmitOut where
  result : SubmitResult
  db : DB
  limiterTs : List Int
deriving DecidableEq, Repr

/-- The number of rows the car-ad deduplication query matches
(`CarAd.user_id == user.id AND brand/model/year equal AND
created_at > week_ago AND status != REJECTED`). -/
def carDupCount (ads : List CarAd) (user_id : Nat) (data : PyDict)
    (weekAgo : Int) : Nat :=
  (ads.filter (fun a =>
      a.user_id == user_id &&
      a.brand == pyStrip (pyStr (dgetD data "brand" (.str ""))) &&
      a.model == pyStrip (pyStr (dgetD data "model" (.str ""))) &&
      a.year == safeInt (dget data "year") 0 &&
      weekAgo < a.created_at &&
      a.status != .rejected)).length

/-- The number of rows the plate-ad deduplication query matches. -/
def plateDupCount (ads : List PlateAd) (user_id : Nat) (data : PyDict)
    (weekAgo : Int) : Nat :=
  (ads.filter (fun a =>
      a.user_id == user_id &&
      a.plate_number == pyStrip (pyStr (dgetD data "plate_number" (.str ""))) &&
      weekAgo < a.created_at &&
      a.status != .rejected)).length

/-- `handle_submit` (api.py:1219–1458), from the `ad_type` check to the
response.  Order of gates as in the source: type / user id parsing,
rate-limit check (which records the attempt when allowed), ban check,
field validation, user upsert, deduplication.

After those gates the source calls
`create_car_ad(session, …, region=…, has_gbo=…)` (resp. `create_plate_ad`
with `region=…`).  The service signatures
(`car_ad_service.py:9–27`, `plate_ad_service.py:10–21`) accept **neither**
`region` nor `has_gbo`, so the call raises `TypeError` before any row is
inserted; the enclosing `except Exception` (api.py:1456–1458) maps it to the
500 "Server error" response and the session closes without commit, rolling
back the user upsert.  Every later block of the source (photo attachment,
auto-approve, FSM hand-off, the `success` response) is therefore
unreachable, and the model returns `.serverError` at the call site.
A `scalar_one_or_none` over two or more dedup matches raises
`MultipleResultsFound`, with the same 500 outcome. -/
def handle_submit (env : SubmitEnv) (db : DB) (data : PyDict) : SubmitOut :=
  match adKindOf? (dget data "type") with
  | none => ⟨.invalidType, db, env.limiterTs⟩
  | some kind =>
    let uidJ := dget data "user_id"
    if !pyTruthy uidJ then ⟨.missingUserId, db, env.limiterTs⟩
    else
      match pyToInt uidJ with
      | .error _ => ⟨.invalidUserId, db, env.limiterTs⟩
      | .ok uid =>
        let chk := limiterCheck submitLimits env.nowMono env.limiterTs
        if chk.denied then ⟨.rateLimited (chk.message.getD ""), db, chk.stored⟩
        else
          let bannedHit := match db.findUserByTg uid with
            | some u => u.is_banned
            | none => false
          if bannedHit then ⟨.banned, db, chk.stored⟩
          else
            let vres := match kind with
              | .car => validate_car_ad env.catalog env.currentYear data
              | .plate => validate_plate_ad data
            match vres with
            | .error _ => ⟨.serverError, db, chk.stored⟩
            | .ok errs =>
              if !errs.isEmpty then ⟨.validationErrors errs, db, chk.stored⟩
              else
                let userDb := get_or_create_user db uid (dget data "username")
                    (dget data "full_name") env.nowUtc
                let weekAgo := env.nowUtc - 7 * 86400
                let dupCount := match kind with
                  | .car => carDupCount userDb.2.car_ads userDb.1.id data weekAgo
                  | .plate => plateDupCount userDb.2.plate_ads userDb.1.id data weekAgo
                if 2 ≤ dupCount then ⟨.serverError, db, chk.stored⟩
                else if dupCount == 1 && !pyTruthy (dget data "force") then
                  ⟨.duplicate, db, chk.stored⟩
                else
                  ⟨.serverError, db, chk.stored⟩

/-! ## Channel publication (`app/utils/publish.py`) -/

/-- Observable side effects of the embedded operations. -/
inductive Effect where
  | sentUserMessage (telegram_id : Int) (text : String)
  | deletedChannelMessage (message_id : Nat)
  | sentChannelPost (message_id : Nat)
deriving DecidableEq, Repr

/-- `publish_to_channel`.  The channel is the list of live message ids;
`newMsgId` is the id the transport assigns to the sent post (media group or
text — the rendering itself carries no state and is not modelled).

* `old_msg_id = getattr(ad, "channel_message_id", None)`: a `CarAd` has no
  such column, so for car ads this is always `None` and no deletion happens;
  for plate ads it is the stored reference.
* After a successful send the source assigns `ad.channel_message_id` and
  commits `session`.  For a `CarAd` the attribute is unmapped and nothing is
  persisted.  For a `PlateAd` it persists only when the ad is attached to
  the committed session (`persistRef` — true on the moderation path; false
  on the submit path, which passes a fresh session the ad is not attached
  to). -/
def publishToChannel (db : DB) (kind : AdKind) (ad_id : Nat)
    (channelConfigured : Bool) (persistRef : Bool)
    (channel : List Nat) (newMsgId : Nat) : DB × List Nat × List Effect :=
  if !channelConfigured then (db, channel, [])
  else
    let oldMsg : Option Nat := match kind with
      | .car => none
      | .plate => (db.findPlate ad_id).bind (·.channel_message_id)
    let step1 : List Nat × List Effect := match oldMsg with
      | some m => (channel.erase m, [.deletedChannelMessage m])
      | none => (channel, [])
    let ch2 := step1.1 ++ [newMsgId]
    let db2 := if persistRef then
        match kind with
        | .car => db
        | .plate =>
            match db.findPlate ad_id with
            | some ad => db.updatePlate { ad with channel_message_id := some newMsgId }
            | none => db
      else db
    (db2, ch2, step1.2 ++ [.sentChannelPost newMsgId])

/-! ## Moderation (`app/services/*_ad_service.py`, `app/api.py`) -/

/-- `approve_car_ad`: loads by id and sets `APPROVED` — with **no** check of
the current status. -/
def approve_car_ad (db : DB) (ad_id : Nat) : Option CarAd × DB :=
  match db.findCar ad_id with
  | none => (none, db)
  | some ad =>
      let ad1 := { ad with status := AdStatus.approved }
      (some ad1, db.updateCar ad1)

/-- `approve_plate_ad` (same shape as `approve_car_ad`). -/
def approve_plate_ad (db : DB) (ad_id : Nat) : Option PlateAd × DB :=
  match db.findPlate ad_id with
  | none => (none, db)
  | some ad =>
      let ad1 := { ad with status := AdStatus.approved }
      (some ad1, db.updatePlate ad1)

/-- `USER_AD_APPROVED` (`app/texts.py`). -/
def USER_AD_APPROVED : String := "🎉 Ваше объявление одобрено и опубликовано!"

/-- Outcome of `POST /api/admin/approve/...`. -/
inductive ApproveResult where
  | ok
  | notFound
deriving DecidableEq, Repr

/-- `admin_approve` (api.py:1755–1800), after admin-access and parameter
checks: approve by id (any prior status), commit, then best-effort owner
notification (when the bot transport is present and the owner row exists),
then `publish_to_channel` (when the bot is present; the ad is attached to
the committed session, so `persistRef` is true). -/
def admin_approve (db : DB) (kind : AdKind) (ad_id : Nat)
    (botPresent channelConfigured : Bool) (channel : List Nat)
    (newMsgId : Nat) : ApproveResult × DB × List Nat × List Effect :=
  let step : Option (Nat × DB) := match kind with
    | .car => (approve_car_ad db ad_id).1.map (fun ad => (ad.user_id, (approve_car_ad db ad_id).2))
    | .plate => (approve_plate_ad db ad_id).1.map (fun ad => (ad.user_id, (approve_plate_ad db ad_id).2))
  match step with
  | none => (.notFound, db, channel, [])
  | some (ownerId, db1) =>
      let notifyEff : List Effect := match db1.findUserById ownerId with
        | some u => if botPresent then [.sentUserMessage u.telegram_id USER_AD_APPROVED] else []
        | none => []
      let pub := if botPresent then
          publishToChannel db1 kind ad_id channelConfigured true channel newMsgId
        else (db1, channel, [])
      (.ok, pub.1, pub.2.1, notifyEff ++ pub.2.2)

/-! ## Owner operations (`app/api.py`: `mark_as_sold`, `_delete_ad`) -/

/-- Outcome of the owner-facing endpoints. -/
inductive OwnerOpResult where
  | ok
  | invalidParams
  | notFound
  | forbidden
deriving DecidableEq, Repr

/-- `mark_as_sold` (api.py:1607–1631): after parameter checks, load the ad,
check ownership, then set `status = SOLD` — with **no** check of the current
status — and commit. -/
def mark_as_sold (db : DB) (kind : AdKind) (ad_id : Nat) (user_id_tg : Int) :
    OwnerOpResult × DB :=
  if ad_id == 0 || user_id_tg == 0 then (.invalidParams, db)
  else
    match kind with
    | .car =>
        match db.findCar ad_id with
        | none => (.notFound, db)
        | some ad =>
            match db.findUserById ad.user_id with
            | some owner =>
                if owner.telegram_id == user_id_tg then
                  (.ok, db.updateCar { ad with status := AdStatus.sold })
                else (.forbidden, db)
            | none => (.forbidden, db)
    | .plate =>
        match db.findPlate ad_id with
        | none => (.notFound, db)
        | some ad =>
            match db.findUserById ad.user_id with
            | some owner =>
                if owner.telegram_id == user_id_tg then
                  (.ok, db.updatePlate { ad with status := AdStatus.sold })
                else (.forbidden, db)
            | none => (.forbidden, db)

/-- The sentinel rejection reason of the owner soft-delete. -/
def DELETED_BY_OWNER : String := "Удалено владельцем"

/-- `_delete_ad` (api.py:1104–1143): after parameter and ownership checks,
set `status = REJECTED` with the sentinel reason — with **no** check of the
current status — and commit. -/
def delete_ad (db : DB) (kind : AdKind) (ad_id : Nat) (user_id_tg : Int) :
    OwnerOpResult × DB :=
  if ad_id == 0 then (.invalidParams, db)
  else if user_id_tg == 0 then (.invalidParams, db)
  else
    match kind with
    | .car =>
        match db.findCar ad_id with
        | none => (.notFound, db)
        | some ad =>
            match db.findUserById ad.user_id with
            | some owner =>
                if owner.telegram_id == user_id_tg then
                  (.ok, db.updateCar { ad with
                      status := AdStatus.rejected,
                      rejection_reason := some DELETED_BY_OWNER })
                else (.forbidden, db)
            | none => (.forbidden, db)
    | .plate =>
        match db.findPlate ad_id with
        | none => (.notFound, db)
        | some ad =>
            match db.findUserById ad.user_id with
            | some owner =>
                if owner.telegram_id == user_id_tg then
                  (.ok, db.updatePlate { ad with
                      status := AdStatus.rejected,
                      rejection_reason := some DELETED_BY_OWNER })
                else (.forbidden, db)
            | none => (.forbidden, db)

/-! ## Owner edit (`app/api.py`: `_edit_ad` and its wrappers) -/

/-- `FuelType.value`. -/
def fuelValue : FuelType → String
  | .petrol => "бензин"
  | .diesel => "дизель"
  | .gas => "газ"
  | .electric => "электро"
  | .hybrid => "гибрид"

/-- `Transmission.value`. -/
def transValue : Transmission → String
  | .manual => "механика"
  | .automatic => "автомат"
  | .robot => "робот"
  | .variator => "вариатор"

/-- An optional string column as a payload value. -/
def joptStr : Option String → JVal
  | none => .null
  | some s => .str s

/-- `_CAR_ALLOWED_FIELDS`. -/
def carAllowedFields : List String :=
  ["brand", "model", "year", "mileage", "engine_volume", "fuel_type",
   "transmission", "color", "price", "description", "region", "city",
   "contact_phone", "contact_telegram", "has_gbo"]

/-- `_PLATE_ALLOWED_FIELDS`. -/
def plateAllowedFields : List String :=
  ["plate_number", "price", "description", "region", "city",
   "contact_phone", "contact_telegram"]

/-- The `current_data` dict `_edit_ad` builds from a `CarAd` row: every
allowed field's current value, enums rendered through `.value`. -/
def carAdToDict (ad : CarAd) : PyDict :=
  [("brand", .str ad.brand), ("model", .str ad.model), ("year", .int ad.year),
   ("mileage", .int ad.mileage), ("engine_volume", .float ad.engine_volume),
   ("fuel_type", .str (fuelValue ad.fuel_type)),
   ("transmission", .str (transValue ad.transmission)),
   ("color", .str ad.color), ("price", .int ad.price),
   ("description", .str ad.description), ("region", joptStr ad.region),
   ("city", .str ad.city), ("contact_phone", .str ad.contact_phone),
   ("contact_telegram", joptStr ad.contact_telegram),
   ("has_gbo", .bool ad.has_gbo)]

/-- The `current_data` dict `_edit_ad` builds from a `PlateAd` row. -/
def plateAdToDict (ad : PlateAd) : PyDict :=
  [("plate_number", .str ad.plate_number), ("price", .int ad.price),
   ("description", .str ad.description), ("region", joptStr ad.region),
   ("city", .str ad.city), ("contact_phone", .str ad.contact_phone),
   ("contact_telegram", joptStr ad.contact_telegram)]

/-- `merged = {**current_data, **body}` — lookup-equivalent association-list
merge: a `body` binding shadows the current one. -/
def dictMerge (current body : PyDict) : PyDict :=
  body ++ current

/-- One `setattr` step of the car edit loop, with its converter
(`_CAR_FIELD_CONVERTERS`; other fields get `str(value).strip()` or `None`).
`.error` models the `IntegrityError` a `None` raises at commit time when the
column is non-nullable. -/
def applyCarField (ad : CarAd) (field : String) (v : JVal) : Except Unit CarAd :=
  match field with
  | "year" => .ok { ad with year := safeInt v 0 }
  | "mileage" => .ok { ad with mileage := safeInt v 0 }
  | "price" => .ok { ad with price := safeInt v 0 }
  | "engine_volume" => .ok { ad with engine_volume := safeFloat v 0 }
  | "fuel_type" => .ok { ad with fuel_type :=
      match v with
      | .str s => (FUEL_TYPE_MAP.lookup s).getD ad.fuel_type
      | _ => ad.fuel_type }
  | "transmission" => .ok { ad with transmission :=
      match v with
      | .str s => (TRANSMISSION_MAP.lookup s).getD ad.transmission
      | _ => ad.transmission }
  | "has_gbo" => .ok { ad with has_gbo := pyTruthy v }
  | "brand" => match v with | .null => .error () | v => .ok { ad with brand := pyStrip (pyStr v) }
  | "model" => match v with | .null => .error () | v => .ok { ad with model := pyStrip (pyStr v) }
  | "color" => match v with | .null => .error () | v => .ok { ad with color := pyStrip (pyStr v) }
  | "description" => match v with | .null => .error () | v => .ok { ad with description := pyStrip (pyStr v) }
  | "city" => match v with | .null => .error () | v => .ok { ad with city := pyStrip (pyStr v) }
  | "contact_phone" => match v with | .null => .error () | v => .ok { ad with contact_phone := pyStrip (pyStr v) }
  | "region" => .ok { ad with region :=
      match v with | .null => none | v => some (pyStrip (pyStr v)) }
  | "contact_telegram" => .ok { ad with contact_telegram :=
      match v with | .null => none | v => some (pyStrip (pyStr v)) }
  | _ => .ok ad

/-- One `setattr` step of the plate edit loop
(`_PLATE_FIELD_CONVERTERS`: only `price` has a converter). -/
def applyPlateField (ad : PlateAd) (field : String) (v : JVal) :
    Except Unit PlateAd :=
  match field with
  | "price" => .ok { ad with price := safeInt v 0 }
  | "plate_number" => match v with | .null => .error () | v => .ok { ad with plate_number := pyStrip (pyStr v) }
  | "description" => match v with | .null => .error () | v => .ok { ad with description := pyStrip (pyStr v) }
  | "city" => match v with | .null => .error () | v => .ok { ad with city := pyStrip (pyStr v) }
  | "contact_phone" => match v with | .null => .error () | v => .ok { ad with contact_phone := pyStrip (pyStr v) }
  | "region" => .ok { ad with region :=
      match v with | .null => none | v => some (pyStrip (pyStr v)) }
  | "contact_telegram" => .ok { ad with contact_telegram :=
      match v with | .null => none | v => some (pyStrip (pyStr v)) }
  | _ => .ok ad

/-- Outcome of `PUT /api/ads/{kind}/{ad_id}`, by response shape. -/
inductive EditResult where
  | invalidAdId
  | missingUserId
  | notFound
  | cannotEditTerminal
  | forbidden
  | validationErrors (errs : List String)
  | serverError
  | ok
deriving DecidableEq, Repr

/-- `_edit_ad` for car ads (api.py:993–1094): load, status guard
(only `PENDING`/`APPROVED` may be edited — the terminal guard precedes the
ownership check), ownership, validation over the merged dict, the update
loop, and the `APPROVED → PENDING` re-moderation reset when at least one
allowed field was written. -/
def edit_car_ad (db : DB) (catalog : Catalog) (currentYear : Int)
    (ad_id : Nat) (user_id_tg : Int) (body : PyDict) : EditResult × DB :=
  if ad_id == 0 then (.invalidAdId, db)
  else if user_id_tg == 0 then (.missingUserId, db)
  else
    match db.findCar ad_id with
    | none => (.notFound, db)
    | some ad =>
      if !(ad.status == AdStatus.pending || ad.status == AdStatus.approved) then
        (.cannotEditTerminal, db)
      else
        let ownerOk := match db.findUserById ad.user_id with
          | some o => o.telegram_id == user_id_tg
          | none => false
        if !ownerOk then (.forbidden, db)
        else
          let merged := dictMerge (carAdToDict ad) body
          match validate_car_ad catalog currentYear merged with
          | .error _ => (.serverError, db)
          | .ok errs =>
            if !errs.isEmpty then (.validationErrors errs, db)
            else
              match body.foldlM (fun a kv => applyCarField a kv.1 kv.2) ad with
              | .error _ => (.serverError, db)
              | .ok ad1 =>
                let updated := body.any (fun kv => carAllowedFields.contains kv.1)
                let ad2 := if updated && ad1.status == AdStatus.approved then
                    { ad1 with status := AdStatus.pending }
                  else ad1
                (.ok, db.updateCar ad2)

/-- `_edit_ad` for plate ads (same control flow as `edit_car_ad`). -/
def edit_plate_ad (db : DB) (ad_id : Nat) (user_id_tg : Int) (body : PyDict) :
    EditResult × DB :=
  if ad_id == 0 then (.invalidAdId, db)
  else if user_id_tg == 0 then (.missingUserId, db)
  else
    match db.findPlate ad_id with
    | none => (.notFound, db)
    | some ad =>
      if !(ad.status == AdStatus.pending || ad.status == AdStatus.approved) then
        (.cannotEditTerminal, db)
      else
        let ownerOk := match db.findUserById ad.user_id with
          | some o => o.telegram_id == user_id_tg
          | none => false
        if !ownerOk then (.forbidden, db)
        else
          let merged := dictMerge (plateAdToDict ad) body
          match validate_plate_ad merged with
          | .error _ => (.serverError, db)
          | .ok errs =>
            if !errs.isEmpty then (.validationErrors errs, db)
            else
              match body.foldlM (fun a kv => applyPlateField a kv.1 kv.2) ad with
              | .error _ => (.serverError, db)
              | .ok ad1 =>
                let updated := body.any (fun kv => plateAllowedFields.contains kv.1)
                let ad2 := if updated && ad1.status == AdStatus.approved then
                    { ad1 with status := AdStatus.pending }
                  else ad1
                (.ok, db.updatePlate ad2)

/-! ## Conversational photo collector (`app/handlers/photos.py`)

The aiogram FSM state for one user is `none` (idle) or `some data`
(`waiting_photos` with its data dict).  Both entry points store exactly
`{ad_id, ad_type, photo_count}` — no `started_at` key is written anywhere in
the source (`grep started_at` matches only `_check_fsm_timeout` itself).
The per-message database session commit comes from `DbSessionMiddleware`
(`app/middlewares/db.py`, which is not under `src/`); it is modelled from
the spec as committing the handler's inserts. -/

/-- `MAX_CAR_PHOTOS` (`app/constants.py`). -/
def MAX_CAR_PHOTOS : Nat := 10

/-- `MAX_PLATE_PHOTOS`. -/
def MAX_PLATE_PHOTOS : Nat := 5

/-- `FSM_TIMEOUT_SECONDS` (photos.py:83). -/
def FSM_TIMEOUT_SECONDS : Int := 3600

/-- `WEB_APP_SKIP_PHOTOS` (`app/texts.py`). -/
def WEB_APP_SKIP_PHOTOS : String := "⏭ Пропустить фото"

/-- `PHOTOS_DONE_BTN` (photos.py:26). -/
def PHOTOS_DONE_BTN : String := "✅ Готово"

/-- The expiry notice of `_check_fsm_timeout`. -/
def FSM_EXPIRED_TEXT : String :=
  "⏰ Время на отправку фото истекло (1 час). Пожалуйста, подайте объявление заново."

/-- `PHOTOS_SKIPPED`. -/
def PHOTOS_SKIPPED : String := "👌 Без фото."

/-- `PHOTOS_UNEXPECTED`. -/
def PHOTOS_UNEXPECTED : String := "📸 Отправьте фото или нажмите «⏭ Пропустить фото»"

/-- `PHOTOS_SAVED.format(count=…)`. -/
def photosSavedText (count : Nat) : String := s!"✅ Сохранено {count} фото!"

/-- `PHOTOS_COUNT.format(count=…, max=…)`. -/
def photosCountText (count maxP : Nat) : String :=
  s!"📸 Фото {count}/{maxP}. Отправьте ещё или напишите «готово»."

/-- `PHOTOS_LIMIT_REACHED.format(max=…)`. -/
def photosLimitText (maxP : Nat) : String := s!"📸 Достигнут лимит — {maxP} фото."

/-- The F13 confirmation sent by `_finish_and_publish`. -/
def MODERATION_SENT_TEXT : String :=
  "✅ Объявление отправлено на модерацию! Мы уведомим вас после проверки."

/-- The FSM data dict both submission paths store when entering
`waiting_photos` (api.py:1448–1452 and web_app.py:108–113): `ad_id`,
`ad_type`, `photo_count` — and nothing else. -/
def collectorEntryData (ad_id : Nat) (ad_type : String) : PyDict :=
  [("ad_id", .int ad_id), ("ad_type", .str ad_type), ("photo_count", .int 0)]

/-- Numeric view of a stored FSM value (they are always ints in the source). -/
def jNumVal : JVal → Int
  | .int n => n
  | .bool b => if b then 1 else 0
  | .float q => q.num.tdiv q.den
  | _ => 0

/-- Natural-number view of a stored FSM value. -/
def jNatVal (v : JVal) : Nat := (jNumVal v).toNat

/-- `state.update_data(key=value)` (lookup-equivalent list update). -/
def updateKey (d : PyDict) (k : String) (v : JVal) : PyDict := (k, v) :: d

/-- `_check_fsm_timeout` (photos.py:86–97):
`started_at = data.get("started_at", 0)`, and the timeout fires only when
`started_at` is truthy **and** more than an hour old.  Since no writer ever
stores `started_at`, the default `0` is falsy and the guard is never
taken. -/
def checkFsmTimeout (data : PyDict) (nowWall : Int) : Bool :=
  let s := dgetD data "started_at" (.int 0)
  pyTruthy s && (FSM_TIMEOUT_SECONDS < nowWall - jNumVal s)

/-- An incoming chat message while in `waiting_photos`. -/
inductive CollectorMsg where
  | photoMsg (file_id : String)
  | textMsg (t : String)
deriving DecidableEq, Repr

/-- Result of one collector interaction: the FSM state after it (`none` =
cleared), the store, and the texts answered to the user. -/
structure CollectorOut where
  state : Option PyDict
  db : DB
  replies : List String
deriving Repr

/-- `_finish_and_publish` (photos.py:51–80): clear the state, confirm, and
leave the ad `PENDING` (F13: no auto-approval); the database is not
touched. -/
def finishAndPublish (db : DB) (photo_count : Nat) : CollectorOut :=
  let doneMsg := if 0 < photo_count then photosSavedText photo_count else PHOTOS_SKIPPED
  ⟨none, db, [doneMsg, MODERATION_SENT_TEXT]⟩

/-- One interaction with the collector in state `waiting_photos`
(photos.py:100–179), with aiogram dispatch in registration order:
the skip button, the done button, a photo, a typed
`готово`/`done`/`стоп` (this handler performs **no** timeout check),
then the catch-all. -/
def collectorStep (db : DB) (data : PyDict) (msg : CollectorMsg)
    (nowWall : Int) : CollectorOut :=
  match msg with
  | .textMsg t =>
      if t == WEB_APP_SKIP_PHOTOS then
        if checkFsmTimeout data nowWall then ⟨none, db, [FSM_EXPIRED_TEXT]⟩
        else finishAndPublish db 0
      else if t == PHOTOS_DONE_BTN then
        if checkFsmTimeout data nowWall then ⟨none, db, [FSM_EXPIRED_TEXT]⟩
        else finishAndPublish db (jNatVal (dgetD data "photo_count" (.int 0)))
      else if ["готово", "done", "стоп"].contains (pyLower t) then
        finishAndPublish db (jNatVal (dgetD data "photo_count" (.int 0)))
      else ⟨some data, db, [PHOTOS_UNEXPECTED]⟩
  | .photoMsg fid =>
      if checkFsmTimeout data nowWall then ⟨none, db, [FSM_EXPIRED_TEXT]⟩
      else
        let adId := jNatVal (dget data "ad_id")
        let adTypeStr := pyStr (dget data "ad_type")
        let photoCount := jNatVal (dgetD data "photo_count" (.int 0))
        let maxP := if adTypeStr == "car_ad" then MAX_CAR_PHOTOS else MAX_PLATE_PHOTOS
        if maxP ≤ photoCount then ⟨some data, db, [photosLimitText maxP]⟩
        else
          let kind := if adTypeStr == "car_ad" then AdKind.car else AdKind.plate
          let photo : AdPhoto :=
            { id := db.next_photo_id, ad_type := kind, ad_id := adId,
              file_id := fid, position := photoCount, created_at := nowWall }
          let db1 := { db with photos := db.photos ++ [photo],
                               next_photo_id := db.next_photo_id + 1 }
          let pc1 := photoCount + 1
          let data1 := updateKey data "photo_count" (.int (pc1 : Int))
          if maxP ≤ pc1 then finishAndPublish db1 pc1
          else ⟨some data1, db1, [photosCountText pc1 maxP]⟩

/-! ## Spec-side definition and concrete fixtures -/

/-- Modelled from the spec (§4.2), for comparison with the code: the defined
status-transition edges `pending→approved`, `pending→rejected`,
`approved→pending`, `approved→rejected`, `approved→sold`. -/
def specDefinedEdge : AdStatus → AdStatus → Bool
  | .pending, .approved => true
  | .pending, .rejected => true
  | .approved, .pending => true
  | .approved, .rejected => true
  | .approved, .sold => true
  | _, _ => false

/-- A small concrete catalog instance (the real `BRANDS` data is not under
`src/`). -/
def fixCat : Catalog := [("Toyota", ["Camry", "Corolla"])]

/-- The §8 scenario payload: a valid car submission with no photos. -/
def fixPay : PyDict :=
  [("type", .str "car_ad"), ("user_id", .int 500), ("brand", .str "Toyota"),
   ("model", .str "Camry"), ("year", .int 2020), ("price", .int 1500000),
   ("city", .str "Москва"), ("contact_phone", .str "89001234567")]

/-- The same payload with two well-formed pre-uploaded photo references. -/
def fixPayPhotos : PyDict :=
  ("photo_ids", .list [.str "loc_a", .str "loc_b"]) :: fixPay

/-- A submit environment: empty rate-limiter state, clocks at fixed values. -/
def fixEnv : SubmitEnv := ⟨fixCat, 2025, 1000000, 0, []⟩

/-- An empty store. -/
def fixEmptyDB : DB := ⟨[], [], [], [], 1, 1, 1, 1⟩

/-- A registered, unbanned user with telegram id 500. -/
def fixUser : UserRow := ⟨1, 500, none, "U", none, false, false, 999000⟩

/-- A pending car ad by `fixUser` with the dedup fields of `fixPay`,
created 100 s before `fixEnv.nowUtc`. -/
def fixCarPending : CarAd :=
  ⟨1, 1, "Toyota", "Camry", 2020, 0, 0, .petrol, .manual, "", 1500000, "",
   false, none, "Москва", "89001234567", none, .pending, none, 0, none, 999900⟩

/-- Store holding `fixUser` and `fixCarPending`. -/
def fixDbDup : DB := ⟨[fixUser], [fixCarPending], [], [], 2, 2, 1, 1⟩

/-- A rejected car ad by `fixUser`. -/
def fixCarRejected : CarAd :=
  ⟨1, 1, "Lada", "2101", 1980, 0, 0, .petrol, .manual, "", 1000, "",
   false, none, "Москва", "89001234567", none, .rejected, some "r", 0, none, 999900⟩

/-- A pending plate ad by `fixUser`. -/
def fixPlatePending : PlateAd :=
  ⟨1, 1, "А001АА", 50000, "", none, "Москва", "89001234567", none,
   .pending, none, 0, none, 999900, none⟩

/-- Store with a rejected car ad and a pending plate ad (moderation cases). -/
def fixDbMod : DB := ⟨[fixUser], [fixCarRejected], [fixPlatePending], [], 2, 2, 2, 1⟩

/-- An approved car ad by `fixUser`. -/
def fixCarApproved : CarAd :=
  { fixCarPending with status := .approved }

/-- An approved plate ad by `fixUser` with no stored channel message. -/
def fixPlateApproved : PlateAd :=
  { fixPlatePending with status := .approved }

/-- Store for the publication scenarios: one approved ad of each kind. -/
def fixDbPub : DB := ⟨[fixUser], [fixCarApproved], [fixPlateApproved], [], 2, 2, 2, 1⟩

/-- The rate-limiter state reached by ten allowed `check` calls at
0, 1, 2, 302, 303, 304, 605, 905, 906, 907 (none of them denied under
`submitLimits`). -/
def fixLimiterTs : List Int := [0, 1, 2, 302, 303, 304, 605, 905, 906, 907]

end AutoBot

namespace AutoBot

/-! ## General lemmas -/

/-- Replacing the row a primary-key `find?` returned (an ORM update) makes
the same `find?` return the replacement. -/
theorem find?_replace {α : Type} (key : α → Nat) (id : Nat) (ad ad' : α)
    (l : List α) (h : l.find? (fun a => key a == id) = some ad)
    (hk : key ad' = id) :
    (l.map (fun a => if key a == key ad' then ad' else a)).find?
      (fun a => key a == id) = some ad' := by
  induction l with
  | nil => simp at h
  | cons b bs ih =>
    by_cases hb : key b = id
    · have hhead : (key b == key ad') = true := by simp [hk, hb]
      simp only [List.map_cons, hhead, if_true]
      exact List.find?_cons_of_pos _ (by simp [hk])
    · rw [List.find?_cons_of_neg _ (by simp [hb])] at h
      have hhead : (key b == key ad') = false := by
        simp only [beq_eq_false_iff_ne, ne_eq, hk]
        exact hb
      simp only [List.map_cons, hhead, if_false, Bool.false_eq_true]
      rw [List.find?_cons_of_neg _ (by simp [hb])]
      exact ih h

/-- `DB.findCar` after `DB.updateCar` with a row of the same id. -/
theorem DB.findCar_update (db : DB) {id : Nat} {ad : CarAd} (ad' : CarAd)
    (h : db.findCar id = some ad) (hk : ad'.id = ad.id) :
    (db.updateCar ad').findCar id = some ad' := by
  have hid : ad.id = id := by
    have := List.find?_some h
    simpa using this
  exact find?_replace CarAd.id id ad ad' db.car_ads h (hk.trans hid)

/-- `DB.findPlate` after `DB.updatePlate` with a row of the same id. -/
theorem DB.findPlate_update (db : DB) {id : Nat} {ad : PlateAd} (ad' : PlateAd)
    (h : db.findPlate id = some ad) (hk : ad'.id = ad.id) :
    (db.updatePlate ad').findPlate id = some ad' := by
  have hid : ad.id = id := by
    have := List.find?_some h
    simpa using this
  exact find?_replace PlateAd.id id ad ad' db.plate_ads h (hk.trans hid)

/-- The brand/model cross-check never escapes an exception: the
`BRANDS[brand_val]` subscript is only reached once membership of the brand
is established. -/
theorem brandModelErrors_isOk (c : Catalog) (b m : String) :
    (brandModelErrors c b m).isOk = true := by
  unfold brandModelErrors catalogSubscript
  split
  · split
    · rfl
    · rename_i hmem
      split
      · cases hx : c.lookup b with
        | none => rw [hx] at hmem; simp at hmem
        | some models =>
            simp only [hx, bind, Except.bind]
            split <;> rfl
      · rfl
  · rfl

/-! ## Claim C10 -/

/-- C10: for every input dictionary, whatever the types of its values (and
for every catalog and current year), `validate_car_ad` and
`validate_plate_ad` return a list of error strings and never raise: every
numeric conversion is guarded, and the catalog subscript is only reached
after membership of the brand is established. -/
theorem C10_validators_never_raise :
    ∀ (catalog : Catalog) (currentYear : Int) (data : PyDict),
      (validate_car_ad catalog currentYear data).isOk = true ∧
      (validate_plate_ad data).isOk = true := by
  intro c y d
  refine ⟨?_, rfl⟩
  unfold validate_car_ad
  have h := brandModelErrors_isOk c
    (pyStrip (pyStr (dgetD d "brand" (.str ""))))
    (pyStrip (pyStr (dgetD d "model" (.str ""))))
  cases hx : brandModelErrors c
      (pyStrip (pyStr (dgetD d "brand" (.str ""))))
      (pyStrip (pyStr (dgetD d "model" (.str "")))) with
  | ok es => simp only [hx, bind, Except.bind]; rfl
  | error e => rw [hx] at h; simp [Except.isOk, Except.toBool] at h

/-! ## Claim C7 -/

/-- C7 counterexample: in the state `fixLimiterTs` (reachable through ten
allowed checks of `submit_limiter`), the check at `t = 908` finds the second
configured rule (10 per 3600 s) at its limit — ten timestamps in its window —
yet is denied with the **first** rule's message, not the second rule's: the
claimed per-rule "denied with that rule's message exactly when the count
reaches the rule's max" is false. -/
theorem C7_counterexample :
    (submitLimits.getD 1 ⟨0, 0, ""⟩).max_requests ≤
      countRecent 908 (submitLimits.getD 1 ⟨0, 0, ""⟩).window_seconds
        (pruneTs 908 (maxWindow submitLimits) fixLimiterTs) ∧
    (limiterCheck submitLimits 908 fixLimiterTs).denied = true ∧
    (limiterCheck submitLimits 908 fixLimiterTs).message ≠
      some (submitLimits.getD 1 ⟨0, 0, ""⟩).message ∧
    (limiterCheck submitLimits 0 []).denied = false ∧
    (limiterCheck submitLimits 907 [0, 1, 2, 302, 303, 304, 605, 905, 906]).denied
      = false := by
  refine ⟨by decide, by decide, by decide, by decide, by decide⟩

/-- C7 amended: `check` is denied exactly when some configured rule's window
already holds at least `max_requests` timestamps (after pruning to the
longest window); the returned message is the message of a violated rule (the
first in configuration order); a denied attempt records nothing, an allowed
attempt appends the current time.  Under the configured `submit_limiter`,
three checks at 0, 1, 2 are allowed, the 4th within the 300 s window is
denied with the configured message without being recorded, and a check after
that window has elapsed is allowed again. -/
theorem C7_limiter_amended (limits : List RateLimit) (now : Int) (ts : List Int) :
    ((limiterCheck limits now ts).denied = true ↔
      ∃ lim ∈ limits, lim.max_requests ≤
        countRecent now lim.window_seconds (pruneTs now (maxWindow limits) ts)) ∧
    (∀ m, (limiterCheck limits now ts).message = some m →
      ∃ lim ∈ limits, lim.message = m ∧ lim.max_requests ≤
        countRecent now lim.window_seconds (pruneTs now (maxWindow limits) ts)) ∧
    ((limiterCheck limits now ts).denied = true →
      (limiterCheck limits now ts).stored = pruneTs now (maxWindow limits) ts) ∧
    ((limiterCheck limits now ts).denied = false →
      (limiterCheck limits now ts).stored = pruneTs now (maxWindow limits) ts ++ [now]) ∧
    limiterCheck submitLimits 0 [] = ⟨false, none, [0]⟩ ∧
    limiterCheck submitLimits 1 [0] = ⟨false, none, [0, 1]⟩ ∧
    limiterCheck submitLimits 2 [0, 1] = ⟨false, none, [0, 1, 2]⟩ ∧
    limiterCheck submitLimits 3 [0, 1, 2] =
      ⟨true, some "Слишком много объявлений. Максимум 3 за 5 минут.", [0, 1, 2]⟩ ∧
    (limiterCheck submitLimits 301 [0, 1, 2]).denied = false := by
  refine ⟨?_, ?_, ?_, ?_, by decide, by decide, by decide, by decide, by decide⟩
  · unfold limiterCheck
    cases hf : limits.find? (fun lim => lim.max_requests ≤
        countRecent now lim.window_seconds (pruneTs now (maxWindow limits) ts)) with
    | none =>
        simp only [hf]
        rw [List.find?_eq_none] at hf
        simp only [Bool.false_eq_true, false_iff]
        rintro ⟨lim, hmem, hle⟩
        exact hf lim hmem (decide_eq_true hle)
    | some lim =>
        simp only [hf]
        have hp0 := List.find?_some hf
        have hp := of_decide_eq_true hp0
        have hm := List.mem_of_find?_eq_some hf
        exact ⟨fun _ => ⟨lim, hm, hp⟩, fun _ => trivial⟩
  · unfold limiterCheck
    cases hf : limits.find? (fun lim => lim.max_requests ≤
        countRecent now lim.window_seconds (pruneTs now (maxWindow limits) ts)) with
    | none =>
        simp only [hf]
        intro m hm
        exact absurd hm (by simp)
    | some lim =>
        simp only [hf]
        intro m hmeq
        have hp0 := List.find?_some hf
        have hp := of_decide_eq_true hp0
        have hm := List.mem_of_find?_eq_some hf
        have hmsg : lim.message = m := by simpa using hmeq
        exact ⟨lim, hm, hmsg, hp⟩
  · unfold limiterCheck
    cases hf : limits.find? (fun lim => lim.max_requests ≤
        countRecent now lim.window_seconds (pruneTs now (maxWindow limits) ts)) with
    | none => simp only [hf]; intro h; exact absurd h (by simp)
    | some lim => simp only [hf]; intro _; trivial
  · unfold limiterCheck
    cases hf : limits.find? (fun lim => lim.max_requests ≤
        countRecent now lim.window_seconds (pruneTs now (maxWindow limits) ts)) with
    | none => simp only [hf]; intro _; trivial
    | some lim => simp only [hf]; intro h; exact absurd h (by simp)

/-- C7 witness: the 4th check within the window (state `[0,1,2]` at `t = 3`)
is denied, and by the amended theorem it records no new timestamp. -/
theorem C7_witness :
    (limiterCheck submitLimits 3 [0, 1, 2]).denied = true ∧
    (limiterCheck submitLimits 3 [0, 1, 2]).stored =
      pruneTs 3 (maxWindow submitLimits) [0, 1, 2] :=
  ⟨by decide, (C7_limiter_amended submitLimits 3 [0, 1, 2]).2.2.1 (by decide)⟩

/-! ## Claim C5 -/

/-- C5: republication deletes a previously published message and persists
the new reference **only for plate ads**.  A `CarAd` has no
`channel_message_id` column, so for car ads the reference assignment in
`publish_to_channel` is never persisted and no old message is ever deleted:
after approve → edit → re-approve, a car ad has **two** live channel
messages.  The plate path behaves as specified. -/
theorem C5_car_republish_bug :
    (publishToChannel fixDbPub .car 1 true true [] 100).1 = fixDbPub ∧
    (publishToChannel fixDbPub .car 1 true true [] 100).2.1 = [100] ∧
    (publishToChannel fixDbPub .car 1 true true [100] 101).2.1 = [100, 101] ∧
    (publishToChannel fixDbPub .car 1 true true [100] 101).2.2 =
      [.sentChannelPost 101] ∧
    ((publishToChannel fixDbPub .plate 1 true true [] 200).1.findPlate 1).map
      PlateAd.channel_message_id = some (some 200) ∧
    (publishToChannel (publishToChannel fixDbPub .plate 1 true true [] 200).1
        .plate 1 true true
        (publishToChannel fixDbPub .plate 1 true true [] 200).2.1 201).2.1 =
      [201] := by
  refine ⟨by decide, by decide, by decide, by decide, by decide, by decide⟩

/-! ## Claim C9 -/

/-- C9: the 1-hour photo-collection timeout can never fire.  Both entry
points store only `{ad_id, ad_type, photo_count}` (`collectorEntryData`) and
no writer ever stores `started_at`, so `_check_fsm_timeout`'s
`started_at and …` guard is always false: a photo sent two hours after entry
is accepted and the state survives instead of being cleared with the expiry
notice.  Moreover the typed-done handler (`finish_photos`) performs no
timeout check at all: even with an expired `started_at` present it finishes
normally while the skip-button handler expires. -/
theorem C9_timeout_dead :
    (∀ (adId : Nat) (adType : String) (now : Int),
        checkFsmTimeout (collectorEntryData adId adType) now = false) ∧
    (collectorStep fixDbDup (collectorEntryData 1 "car_ad")
        (.photoMsg "f1") 7200).state.isSome = true ∧
    (collectorStep fixDbDup (collectorEntryData 1 "car_ad")
        (.photoMsg "f1") 7200).db.photos.length = 1 ∧
    (collectorStep fixDbDup (collectorEntryData 1 "car_ad")
        (.photoMsg "f1") 7200).replies = [photosCountText 1 10] ∧
    (collectorStep fixDbDup (("started_at", .int 1) :: collectorEntryData 1 "car_ad")
        (.textMsg "готово") 999999).replies =
      [PHOTOS_SKIPPED, MODERATION_SENT_TEXT] ∧
    (collectorStep fixDbDup (("started_at", .int 1) :: collectorEntryData 1 "car_ad")
        (.textMsg WEB_APP_SKIP_PHOTOS) 999999).replies = [FSM_EXPIRED_TEXT] := by
  refine ⟨fun adId adType now => rfl, by decide, by decide, by decide, by decide, by decide⟩

/-! ## Claim C8 -/

/-- C8: an ad whose status is `rejected` or `sold` cannot be edited: the
edit endpoint fails with the terminal-status domain error before any write,
for both ad kinds, and the store is returned unchanged. -/
theorem C8_terminal_edit_blocked
    (db : DB) (catalog : Catalog) (cy : Int) (ad_id : Nat) (tg : Int)
    (body : PyDict) :
    (∀ ad, db.findCar ad_id = some ad →
      (ad.status = .rejected ∨ ad.status = .sold) →
      ad_id ≠ 0 → tg ≠ 0 →
      edit_car_ad db catalog cy ad_id tg body = (.cannotEditTerminal, db)) ∧
    (∀ ad, db.findPlate ad_id = some ad →
      (ad.status = .rejected ∨ ad.status = .sold) →
      ad_id ≠ 0 → tg ≠ 0 →
      edit_plate_ad db ad_id tg body = (.cannotEditTerminal, db)) := by
  constructor
  · intro ad hfind hstatus hid htg
    have h0 : (ad_id == 0) = false := by simpa using hid
    have h1 : (tg == 0) = false := by simpa using htg
    rcases hstatus with h | h <;>
      simp [edit_car_ad, h0, h1, hfind, h]
  · intro ad hfind hstatus hid htg
    have h0 : (ad_id == 0) = false := by simpa using hid
    have h1 : (tg == 0) = false := by simpa using htg
    rcases hstatus with h | h <;>
      simp [edit_plate_ad, h0, h1, hfind, h]

/-- C8 witness: a concrete price edit of the rejected car ad in `fixDbMod`
is refused and the store is unchanged. -/
theorem C8_witness :
    edit_car_ad fixDbMod fixCat 2025 1 500 [("price", .int 2000)] =
      (.cannotEditTerminal, fixDbMod) :=
  (C8_terminal_edit_blocked fixDbMod fixCat 2025 1 500
      [("price", .int 2000)]).1 fixCarRejected (by decide) (Or.inl rfl)
    (by decide) (by decide)

/-! ## Claim C4 -/

/-- C4 counterexample: `mark_as_sold` on a **pending** ad succeeds and moves
it to `sold`, and `_delete_ad` then moves the **sold** ad to `rejected` —
two transitions outside the defined edge set, refuting the claimed
invariant. -/
theorem C4_counterexample :
    fixDbDup.statusOf .car 1 = some .pending ∧
    (mark_as_sold fixDbDup .car 1 500).1 = .ok ∧
    (mark_as_sold fixDbDup .car 1 500).2.statusOf .car 1 = some .sold ∧
    specDefinedEdge .pending .sold = false ∧
    (delete_ad (mark_as_sold fixDbDup .car 1 500).2 .car 1 500).1 = .ok ∧
    (delete_ad (mark_as_sold fixDbDup .car 1 500).2 .car 1 500).2.statusOf
      .car 1 = some .rejected ∧
    specDefinedEdge .sold .rejected = false := by
  refine ⟨by decide, by decide, by decide, by decide, by decide, by decide, by decide⟩

/-- C4 amended: for any existing ad whose owner issues the call,
`mark_as_sold` sets status `sold` and `_delete_ad` sets status `rejected`
with the sentinel reason — **regardless of the ad's current status** (the
handlers check only existence and ownership, not the transition edge). -/
theorem C4_sold_delete_any_status (db : DB) (id : Nat) (tg : Int) :
    (∀ ad owner, db.findCar id = some ad →
      db.findUserById ad.user_id = some owner → owner.telegram_id = tg →
      id ≠ 0 → tg ≠ 0 →
      mark_as_sold db .car id tg =
        (.ok, db.updateCar { ad with status := .sold }) ∧
      (mark_as_sold db .car id tg).2.statusOf .car id = some .sold ∧
      delete_ad db .car id tg =
        (.ok, db.updateCar { ad with status := .rejected, rejection_reason := some DELETED_BY_OWNER }) ∧
      (delete_ad db .car id tg).2.statusOf .car id = some .rejected) ∧
    (∀ ad owner, db.findPlate id = some ad →
      db.findUserById ad.user_id = some owner → owner.telegram_id = tg →
      id ≠ 0 → tg ≠ 0 →
      mark_as_sold db .plate id tg =
        (.ok, db.updatePlate { ad with status := .sold }) ∧
      (mark_as_sold db .plate id tg).2.statusOf .plate id = some .sold ∧
      delete_ad db .plate id tg =
        (.ok, db.updatePlate { ad with status := .rejected, rejection_reason := some DELETED_BY_OWNER }) ∧
      (delete_ad db .plate id tg).2.statusOf .plate id = some .rejected) := by
  constructor
  · intro ad owner hfind howner htg hid htg0
    have h0 : (id == 0) = false := by simpa using hid
    have h1 : (tg == 0) = false := by simpa using htg0
    have htgb : (owner.telegram_id == tg) = true := by simpa using htg
    have hsold : mark_as_sold db .car id tg =
        (.ok, db.updateCar { ad with status := .sold }) := by
      simp [mark_as_sold, h0, h1, hfind, howner, htgb]
    have hdel : delete_ad db .car id tg =
        (.ok, db.updateCar { ad with status := .rejected, rejection_reason := some DELETED_BY_OWNER }) := by
      simp [delete_ad, h0, h1, hfind, howner, htgb]
    refine ⟨hsold, ?_, hdel, ?_⟩
    · rw [hsold]
      simp only [DB.statusOf]
      rw [DB.findCar_update db { ad with status := .sold } hfind rfl]
      rfl
    · rw [hdel]
      simp only [DB.statusOf]
      rw [DB.findCar_update db { ad with status := .rejected, rejection_reason := some DELETED_BY_OWNER } hfind rfl]
      rfl
  · intro ad owner hfind howner htg hid htg0
    have h0 : (id == 0) = false := by simpa using hid
    have h1 : (tg == 0) = false := by simpa using htg0
    have htgb : (owner.telegram_id == tg) = true := by simpa using htg
    have hsold : mark_as_sold db .plate id tg =
        (.ok, db.updatePlate { ad with status := .sold }) := by
      simp [mark_as_sold, h0, h1, hfind, howner, htgb]
    have hdel : delete_ad db .plate id tg =
        (.ok, db.updatePlate { ad with status := .rejected, rejection_reason := some DELETED_BY_OWNER }) := by
      simp [delete_ad, h0, h1, hfind, howner, htgb]
    refine ⟨hsold, ?_, hdel, ?_⟩
    · rw [hsold]
      simp only [DB.statusOf]
      rw [DB.findPlate_update db { ad with status := .sold } hfind rfl]
      rfl
    · rw [hdel]
      simp only [DB.statusOf]
      rw [DB.findPlate_update db { ad with status := .rejected, rejection_reason := some DELETED_BY_OWNER } hfind rfl]
      rfl

/-- C4 witness: the amended theorem applied to the pending car ad of
`fixDbDup`. -/
theorem C4_witness :
    mark_as_sold fixDbDup .car 1 500 =
      (.ok, fixDbDup.updateCar { fixCarPending with status := .sold }) :=
  ((C4_sold_delete_any_status fixDbDup 1 500).1 fixCarPending fixUser
    (by decide) (by decide) (by decide) (by decide) (by decide)).1

/-! ## Claim C3 -/

/-- C3 counterexample: `approve` on the **rejected** car ad of `fixDbMod`
is not a "not found" no-op — it returns ok, flips the status to `approved`
and produces side effects; and approving the plate ad twice returns ok both
times with the notification/publication side effects repeated on the second
call. -/
theorem C3_counterexample :
    fixDbMod.statusOf .car 1 = some .rejected ∧
    (admin_approve fixDbMod .car 1 true true [] 100).1 ≠ .notFound ∧
    (admin_approve fixDbMod .car 1 true true [] 100).2.1.statusOf .car 1 =
      some .approved ∧
    (admin_approve fixDbMod .car 1 true true [] 100).2.2.2 ≠ [] ∧
    (admin_approve fixDbMod .plate 1 true true [] 100).1 = .ok ∧
    (admin_approve (admin_approve fixDbMod .plate 1 true true [] 100).2.1
        .plate 1 true true
        (admin_approve fixDbMod .plate 1 true true [] 100).2.2.1 101).1 = .ok ∧
    (admin_approve (admin_approve fixDbMod .plate 1 true true [] 100).2.1
        .plate 1 true true
        (admin_approve fixDbMod .plate 1 true true [] 100).2.2.1 101).2.2.2 ≠ [] := by
  refine ⟨by decide, by decide, by decide, by decide, by decide, by decide, by decide⟩

/-- C3 amended: `approve(ad_kind, ad_id)` returns "not found" only when no
ad with that id exists; whenever the ad exists it returns ok and sets the
status to `approved` **regardless of the prior status** (there is no
`pending` guard), re-triggering the notification/publication side effects on
every call. -/
theorem C3_approve_any_status (db : DB) (kind : AdKind) (id : Nat)
    (bot cfg : Bool) (ch : List Nat) (mid : Nat) :
    (db.statusOf kind id = none →
      admin_approve db kind id bot cfg ch mid = (.notFound, db, ch, [])) ∧
    (∀ s, db.statusOf kind id = some s →
      (admin_approve db kind id bot cfg ch mid).1 = .ok ∧
      (admin_approve db kind id bot cfg ch mid).2.1.statusOf kind id =
        some .approved) := by
  cases kind with
  | car =>
    constructor
    · intro hnone
      have hf : db.findCar id = none := by
        unfold DB.statusOf at hnone
        cases h : db.findCar id with
        | none => rfl
        | some a => rw [h] at hnone; simp at hnone
      simp [admin_approve, approve_car_ad, hf]
    · intro s hs
      obtain ⟨ad, hf⟩ : ∃ ad, db.findCar id = some ad := by
        unfold DB.statusOf at hs
        cases h : db.findCar id with
        | none => rw [h] at hs; simp at hs
        | some a => exact ⟨a, rfl⟩
      have hupd := DB.findCar_update db { ad with status := .approved } hf rfl
      constructor
      · simp [admin_approve, approve_car_ad, hf]
      · cases bot <;> cases cfg <;>
          simp [admin_approve, approve_car_ad, hf, publishToChannel,
                DB.statusOf, hupd]
  | plate =>
    constructor
    · intro hnone
      have hf : db.findPlate id = none := by
        unfold DB.statusOf at hnone
        cases h : db.findPlate id with
        | none => rfl
        | some a => rw [h] at hnone; simp at hnone
      simp [admin_approve, approve_plate_ad, hf]
    · intro s hs
      obtain ⟨ad, hf⟩ : ∃ ad, db.findPlate id = some ad := by
        unfold DB.statusOf at hs
        cases h : db.findPlate id with
        | none => rw [h] at hs; simp at hs
        | some a => exact ⟨a, rfl⟩
      have h1 := DB.findPlate_update db { ad with status := .approved } hf rfl
      have h2 := DB.findPlate_update (db.updatePlate { ad with status := .approved })
        { { ad with status := .approved } with channel_message_id := some mid } h1 rfl
      constructor
      · simp [admin_approve, approve_plate_ad, hf]
      · cases bot <;> cases cfg <;>
          simp [admin_approve, approve_plate_ad, hf, publishToChannel,
                DB.statusOf, h1, h2]

/-- C3 witness: the amended theorem applied to the pending plate ad of
`fixDbMod`. -/
theorem C3_witness :
    (admin_approve fixDbMod .plate 1 true true [] 100).1 = .ok ∧
    (admin_approve fixDbMod .plate 1 true true [] 100).2.1.statusOf .plate 1 =
      some .approved :=
  (C3_approve_any_status fixDbMod .plate 1 true true [] 100).2 .pending (by decide)

/-! ## Claim C1 -/

/-- C1: the §8 scenario payload passes field validation, is not rate-limited
and carries no photo references, yet `submit` does **not** succeed: the call
`create_car_ad(session, …, region=…, has_gbo=…)` raises `TypeError` (the
service signature accepts neither keyword), so the endpoint answers the 500
"Server error" and no ad row is created. -/
theorem C1_submit_create_crash :
    validate_car_ad fixCat 2025 fixPay = .ok [] ∧
    (limiterCheck submitLimits 0 []).denied = false ∧
    (fixPay.lookup "photo_ids").isNone = true ∧
    handle_submit fixEnv fixEmptyDB fixPay = ⟨.serverError, fixEmptyDB, [0]⟩ ∧
    fixEmptyDB.car_ads = [] := by
  refine ⟨by decide, by decide, by decide, by decide, by decide⟩

/-! ## Claim C2 -/

/-- C2: a valid submission carrying two well-formed pre-uploaded photo
references fails the same way: the create call crashes with `TypeError`
before the photo-attachment / auto-approve block (api.py:1385–1423) can
run, so no ad is created, nothing is attached and nothing is published. -/
theorem C2_submit_photos_crash :
    validate_car_ad fixCat 2025 fixPayPhotos = .ok [] ∧
    (limiterCheck submitLimits 0 []).denied = false ∧
    dget fixPayPhotos "photo_ids" = .list [.str "loc_a", .str "loc_b"] ∧
    strStartsWith "loc_a" "loc_" = true ∧
    strStartsWith "loc_b" "loc_" = true ∧
    handle_submit fixEnv fixEmptyDB fixPayPhotos =
      ⟨.serverError, fixEmptyDB, [0]⟩ ∧
    fixEmptyDB.photos = [] := by
  refine ⟨by decide, by decide, rfl, by decide, by decide, by decide, by decide⟩

/-! ## Claim C6 -/

/-- C6: with one matching non-rejected car ad created 100 s earlier by the
same user (`fixDbDup`), an identical second submission without `force` is
rejected as a duplicate conflict with the store unchanged — but the `force`
escape hatch is broken: the forced resubmission crashes in
`create_car_ad(…, region=…, has_gbo=…)` (`TypeError` → 500), so the second
ad row is never created and "both ads exist" is false. -/
theorem C6_dedup_force_crash :
    carDupCount fixDbDup.car_ads 1 fixPay (1000000 - 7 * 86400) = 1 ∧
    handle_submit fixEnv fixDbDup fixPay = ⟨.duplicate, fixDbDup, [0]⟩ ∧
    handle_submit fixEnv fixDbDup (("force", .bool true) :: fixPay) =
      ⟨.serverError, fixDbDup, [0]⟩ ∧
    fixDbDup.car_ads.length = 1 := by
  refine ⟨by decide, by decide, by decide, by decide⟩

end AutoBot
